import Mathlib

/-!
Verification development for the MedRAG diagnostic system: a shallow
embedding of the frontend API client (`frontend/lib/api-client.ts`) and of
the backend diagnosis pipeline described in the design document, together
with theorems settling the behavioural claims about them.
-/

namespace MedRAG

/-- JSON values, used to model request and response bodies. -/
inductive Json where
  | str (s : String)
  | num (n : Int)
  | bool (b : Bool)
  | arr (items : List Json)
  | obj (fields : List (String × Json))

/-- Hex digit characters, uppercase, as produced by `encodeURIComponent`. -/
def hexDigitChar (n : Nat) : Char :=
  if n < 10 then Char.ofNat (48 + n) else Char.ofNat (55 + n)

/-- UTF-8 byte sequence of a character. -/
def utf8Bytes (c : Char) : List Nat :=
  let n := c.toNat
  if n < 128 then [n]
  else if n < 2048 then [192 + n / 64, 128 + n % 64]
  else if n < 65536 then [224 + n / 4096, 128 + (n / 64) % 64, 128 + n % 64]
  else [240 + n / 262144, 128 + (n / 4096) % 64, 128 + (n / 64) % 64, 128 + n % 64]

/-- Percent-encoding of one byte. -/
def percentEncodeByte (b : Nat) : String :=
  String.mk ['%', hexDigitChar (b / 16), hexDigitChar (b % 16)]

/-- Characters left unescaped by JavaScript `encodeURIComponent`. -/
def uriUnreservedChar (c : Char) : Bool :=
  c.isAlphanum || c = '-' || c = '_' || c = '.' || c = '!' || c = '~' ||
    c = '*' || c = Char.ofNat 39 || c = '(' || c = ')'

/-- Model of JavaScript `encodeURIComponent`. -/
def encodeURIComponent (s : String) : String :=
  String.join (s.toList.map (fun c =>
    if uriUnreservedChar c then String.mk [c]
    else String.join ((utf8Bytes c).map percentEncodeByte)))

/-- An HTTP request as issued by the client's `fetch` calls. -/
structure Request where
  method : String
  url : String
  includeCredentials : Bool
  body : Option Json

/-- An HTTP response as observed by the client. -/
structure Response where
  status : Nat
  statusText : String
  body : Json

/-- The `ok` property of a fetch `Response`: status in the range 200-299. -/
def Response.isOk (r : Response) : Bool :=
  200 ≤ r.status && r.status ≤ 299

/-- The error message thrown by the client on a non-ok response. -/
def httpErrorMessage (r : Response) : String :=
  "HTTP " ++ toString r.status ++ ": " ++ r.statusText

/-! ### Embedding of the APIClient request builders (api-client.ts) -/

/-- `SignupData` from api-client.ts. -/
structure SignupData where
  email : String
  password : String
  full_name : Option String

/-- `LoginData` from api-client.ts. -/
structure LoginData where
  email : String
  password : String

/-- `DiagnosisRequest` from api-client.ts: the payload the client sends to
start a diagnosis. -/
structure DiagnosisRequest where
  patient_name : String
  patient_email : String
  age : Int
  gender : String
  symptoms : String
  medical_history : Option String

/-- The JSON body `signup` serializes: only username (the email) and
password, regardless of `full_name`. -/
def authLoginBody (email password : String) : Json :=
  Json.obj [("username", Json.str email), ("password", Json.str password)]

/-- Request issued by `APIClient.signup`. -/
def signup_req (base : String) (d : SignupData) : Request :=
  { method := "POST"
    url := base ++ "/auth/login"
    includeCredentials := false
    body := some (authLoginBody d.email d.password) }

/-- Request issued by `APIClient.login`. -/
def login_req (base : String) (d : LoginData) : Request :=
  { method := "POST"
    url := base ++ "/auth/login"
    includeCredentials := true
    body := some (authLoginBody d.email d.password) }

/-- JSON body serialized by `createDiagnosis` (JSON.stringify of a
`DiagnosisRequest`; an absent optional field is omitted). -/
def diagnosisRequestBody (d : DiagnosisRequest) : Json :=
  Json.obj
    ([("patient_name", Json.str d.patient_name),
      ("patient_email", Json.str d.patient_email),
      ("age", Json.num d.age),
      ("gender", Json.str d.gender),
      ("symptoms", Json.str d.symptoms)] ++
     (match d.medical_history with
      | some h => [("medical_history", Json.str h)]
      | none => []))

/-- Request issued by `APIClient.createDiagnosis`. -/
def createDiagnosis_req (base : String) (d : DiagnosisRequest) : Request :=
  { method := "POST"
    url := base ++ "/api/v1/diagnosis/start"
    includeCredentials := true
    body := some (diagnosisRequestBody d) }

/-- Request issued by `APIClient.findPath`. -/
def findPath_req (base sourceNode targetNode : String) : Request :=
  { method := "GET"
    url := base ++ "/api/v1/kg/path/" ++ encodeURIComponent sourceNode ++
      "/" ++ encodeURIComponent targetNode
    includeCredentials := false
    body := none }

/-- Request issued by `APIClient.getDiseaseInfo`. -/
def getDiseaseInfo_req (base diseaseName : String) : Request :=
  { method := "GET"
    url := base ++ "/api/v1/kg/disease/" ++ encodeURIComponent diseaseName
    includeCredentials := false
    body := none }

/-- Request issued by `APIClient.getSymptomRelations`. -/
def getSymptomRelations_req (base symptom : String) : Request :=
  { method := "GET"
    url := base ++ "/api/v1/kg/symptoms/" ++ encodeURIComponent symptom
    includeCredentials := false
    body := none }

/-- Request issued by `APIClient.getKGStats`. -/
def getKGStats_req (base : String) : Request :=
  { method := "GET"
    url := base ++ "/api/v1/kg/stats"
    includeCredentials := false
    body := none }

/-- Field names of a JSON object. -/
def objKeys : Json → List String
  | Json.obj fields => fields.map Prod.fst
  | _ => []

/-- Keys of a request's JSON body. -/
def bodyKeys (r : Request) : List String :=
  match r.body with
  | some j => objKeys j
  | none => []

/-! ### Embedding of the APIClient response handling (api-client.ts)

Each method's handling of the `fetch` response is a function from the
response to either a thrown error or the parsed body. -/

/-- `createDiagnosis`: throws on a non-ok status, else returns the body. -/
def createDiagnosis_onResponse (r : Response) : Except String Json :=
  if r.isOk then Except.ok r.body else Except.error (httpErrorMessage r)

/-- `getUserDiagnoses`: throws "Not authenticated" on 403, throws on any
other non-ok status, else returns the body. -/
def getUserDiagnoses_onResponse (r : Response) : Except String Json :=
  if r.status = 403 then Except.error "Not authenticated"
  else if r.isOk then Except.ok r.body
  else Except.error (httpErrorMessage r)

/-- `getDiagnosis`: throws on a non-ok status, else returns the body. -/
def getDiagnosis_onResponse (r : Response) : Except String Json :=
  if r.isOk then Except.ok r.body else Except.error (httpErrorMessage r)

/-- `signup`: returns the parsed body unconditionally. -/
def signup_onResponse (r : Response) : Except String Json := Except.ok r.body

/-- `login`: returns the parsed body unconditionally. -/
def login_onResponse (r : Response) : Except String Json := Except.ok r.body

/-- `getCurrentUser`: returns the parsed body unconditionally. -/
def getCurrentUser_onResponse (r : Response) : Except String Json := Except.ok r.body

/-- `updateUser`: returns the parsed body unconditionally. -/
def updateUser_onResponse (r : Response) : Except String Json := Except.ok r.body

/-- `uploadFile`: returns the parsed body unconditionally. -/
def uploadFile_onResponse (r : Response) : Except String Json := Except.ok r.body

/-- `getUploadProgress`: returns the parsed body unconditionally. -/
def getUploadProgress_onResponse (r : Response) : Except String Json := Except.ok r.body

/-- `healthCheck`: returns the parsed body unconditionally. -/
def healthCheck_onResponse (r : Response) : Except String Json := Except.ok r.body

/-- `deleteDiagnosis`: returns the parsed body unconditionally. -/
def deleteDiagnosis_onResponse (r : Response) : Except String Json := Except.ok r.body

/-- `exportDiagnosis`: returns the parsed body unconditionally. -/
def exportDiagnosis_onResponse (r : Response) : Except String Json := Except.ok r.body

/-- `submitFeedback`: returns the parsed body unconditionally. -/
def submitFeedback_onResponse (r : Response) : Except String Json := Except.ok r.body

/-- `getDiagnosisSummary`: returns the parsed body unconditionally. -/
def getDiagnosisSummary_onResponse (r : Response) : Except String Json := Except.ok r.body

/-- `getSessionKG`: returns the parsed body unconditionally. -/
def getSessionKG_onResponse (r : Response) : Except String Json := Except.ok r.body

/-- `exploreNode`: returns the parsed body unconditionally. -/
def exploreNode_onResponse (r : Response) : Except String Json := Except.ok r.body

/-- `findPath`: returns the parsed body unconditionally. -/
def findPath_onResponse (r : Response) : Except String Json := Except.ok r.body

/-- `getDiseaseInfo`: returns the parsed body unconditionally. -/
def getDiseaseInfo_onResponse (r : Response) : Except String Json := Except.ok r.body

/-- `getSymptomRelations`: returns the parsed body unconditionally. -/
def getSymptomRelations_onResponse (r : Response) : Except String Json := Except.ok r.body

/-- `getKGStats`: returns the parsed body unconditionally. -/
def getKGStats_onResponse (r : Response) : Except String Json := Except.ok r.body

/-- `analyzeSymptoms`: returns the parsed body unconditionally. -/
def analyzeSymptoms_onResponse (r : Response) : Except String Json := Except.ok r.body

/-- `createPatient`: returns the parsed body unconditionally. -/
def createPatient_onResponse (r : Response) : Except String Json := Except.ok r.body

/-- `getPatient`: returns the parsed body unconditionally. -/
def getPatient_onResponse (r : Response) : Except String Json := Except.ok r.body

/-- `deletePatient`: returns the parsed body unconditionally. -/
def deletePatient_onResponse (r : Response) : Except String Json := Except.ok r.body

/-! ### logout and verifyEmail (api-client.ts) -/

/-- `localStorage.removeItem`: drop a key from the store. -/
def localStorage_removeItem (store : List (String × String)) (key : String) :
    List (String × String) :=
  store.filter (fun kv => kv.1 ≠ key)

/-- The literal `\x7b success: true \x7d` object both methods return. -/
def successJson : Json := Json.obj [("success", Json.bool true)]

/-- `APIClient.logout`: clears the local token and returns success; the
final component is the list of network requests issued (none). -/
def logout (store : List (String × String)) :
    List (String × String) × Json × List Request :=
  (localStorage_removeItem store "token", successJson, [])

/-- `APIClient.verifyEmail`: returns success for any token; the second
component is the list of network requests issued (none). -/
def verifyEmail (token : String) : Json × List Request :=
  (successJson, [])

/-! ### Backend diagnosis pipeline, modelled from the specification

The backend source (session manager, task executor, result aggregator,
knowledge-graph engine, export handler) is not part of the frontend tree;
the definitions below model it from the design document. -/

/-- Session lifecycle states. -/
inductive SessionState where
  | pending
  | processing
  | completed
  | failed
deriving DecidableEq

/-- Errors of the Session Manager. -/
inductive TransitionError where
  | sessionNotFound
  | invalidStateTransition
deriving DecidableEq

/-- Modelled from the spec: the session state machine
`pending -> processing -> \x7bcompleted, failed\x7d`; every other edge is
disallowed. -/
def allowedTransition : SessionState → SessionState → Bool
  | SessionState.pending, SessionState.processing => true
  | SessionState.processing, SessionState.completed => true
  | SessionState.processing, SessionState.failed => true
  | _, _ => false

/-- One differential-diagnosis entry of the canonical result shape. -/
structure DxEntry where
  condition : String
  confidence : Int
  description : String
  icd10 : String
deriving DecidableEq

/-- One recommended action of the canonical result shape. -/
structure ActionItem where
  id : String
  text : String
  priority : String
  category : String
deriving DecidableEq

/-- One follow-up question of the canonical result shape. -/
structure QuestionItem where
  id : String
  text : String
deriving DecidableEq

/-- One similar case of the canonical result shape. -/
structure SimilarCase where
  caseId : String
  similarity : Int
  diagnosis : String
  outcome : String
deriving DecidableEq

/-- The canonical DiagnosisResult record. -/
structure DiagnosisResult where
  differentialDiagnosis : List DxEntry
  recommendedActions : List ActionItem
  followUpQuestions : List QuestionItem
  similarCases : List SimilarCase
deriving DecidableEq

/-- A diagnosis session record: state, optional stored result, a
degraded-result flag, and optional error detail. -/
structure DiagnosisSession where
  state : SessionState
  result : Option DiagnosisResult
  degraded : Bool
  errorDetail : Option String
deriving DecidableEq

/-- Session store keyed by session id. -/
def SessionStore : Type := List (String × DiagnosisSession)

/-- Look a session up by id. -/
def storeGet (store : SessionStore) (sid : String) : Option DiagnosisSession :=
  match store with
  | [] => none
  | (k, s) :: rest => if k = sid then some s else storeGet rest sid

/-- Replace the session stored under an id. -/
def storeSet (store : SessionStore) (sid : String) (s : DiagnosisSession) :
    SessionStore :=
  match store with
  | [] => [(sid, s)]
  | (k, s0) :: rest =>
    if k = sid then (k, s) :: rest else (k, s0) :: storeSet rest sid s

/-- Modelled from the spec: Session Manager `transition(sessionId,
newState, result|error)`; enforces the state machine, fails with
InvalidStateTransition on any other edge without side effect, fails with
SessionNotFound on an unknown id. -/
def transition (store : SessionStore) (sid : String) (new : SessionState)
    (result : Option DiagnosisResult) (degraded : Bool)
    (errorDetail : Option String) : Except TransitionError SessionStore :=
  match storeGet store sid with
  | none => Except.error TransitionError.sessionNotFound
  | some s =>
    if allowedTransition s.state new then
      Except.ok (storeSet store sid
        { state := new, result := result, degraded := degraded,
          errorDetail := errorDetail })
    else
      Except.error TransitionError.invalidStateTransition

/-- A state sequence is well-formed when every consecutive pair is an
allowed transition. -/
def chainOK : List SessionState → Bool
  | [] => true
  | [_] => true
  | a :: b :: rest => allowedTransition a b && chainOK (b :: rest)

/-! ### Result Aggregator, modelled from the specification -/

/-- A raw differential-diagnosis entry as produced by the Generation
Client; any field may be missing. -/
structure RawDxEntry where
  condition : Option String
  confidence : Option Int
  description : Option String
  code : Option String
deriving DecidableEq

/-- A raw recommended action; the id may be missing. -/
structure RawAction where
  id : Option String
  text : String
  priority : String
  category : String
deriving DecidableEq

/-- A raw follow-up question; the id may be missing. -/
structure RawQuestion where
  id : Option String
  text : String
deriving DecidableEq

/-- A raw similar case. -/
structure RawCase where
  caseId : String
  similarity : Int
  diagnosis : String
  outcome : String
deriving DecidableEq

/-- The raw structured payload returned by the Generation Client. -/
structure RawPayload where
  differential : List RawDxEntry
  actions : List RawAction
  questions : List RawQuestion
  cases : List RawCase
deriving DecidableEq

/-- Error of the Result Aggregator. -/
inductive AggError where
  | malformedPayload
deriving DecidableEq

/-- Clamp a value to the interval [0, 100]. -/
def clamp100 (x : Int) : Int := max 0 (min 100 x)

/-- A raw diagnosis entry is usable when its condition and confidence are
both present. -/
def usableDx (e : RawDxEntry) : Bool :=
  e.condition.isSome && e.confidence.isSome

/-- Normalize one raw diagnosis entry: drop it when malformed, clamp its
confidence, default the optional descriptive fields. -/
def normDx (e : RawDxEntry) : Option DxEntry :=
  match e.condition, e.confidence with
  | some c, some conf =>
    some { condition := c, confidence := clamp100 conf,
           description := e.description.getD "", icd10 := e.code.getD "" }
  | _, _ => none

/-- Descending-confidence ordering on diagnosis entries. -/
def dxDesc (a b : DxEntry) : Prop := b.confidence ≤ a.confidence

instance : DecidableRel dxDesc := fun a b =>
  inferInstanceAs (Decidable (b.confidence ≤ a.confidence))

instance : IsTotal DxEntry dxDesc :=
  ⟨fun a b => le_total b.confidence a.confidence⟩

instance : IsTrans DxEntry dxDesc :=
  ⟨fun _ _ _ h1 h2 => le_trans h2 h1⟩

/-- Sort diagnosis entries by descending confidence. -/
def sortDxDesc (l : List DxEntry) : List DxEntry := l.insertionSort dxDesc

/-- Synthetic id assigned to the action at a position. -/
def synthActionId (i : Nat) : String := "a" ++ toString (i + 1)

/-- Synthetic id assigned to the question at a position. -/
def synthQuestionId (i : Nat) : String := "q" ++ toString (i + 1)

/-- Normalize one action, assigning a synthetic id when it has none. -/
def normAction (i : Nat) (a : RawAction) : ActionItem :=
  { id := a.id.getD (synthActionId i), text := a.text,
    priority := a.priority, category := a.category }

/-- Normalize one question, assigning a synthetic id when it has none. -/
def normQuestion (i : Nat) (q : RawQuestion) : QuestionItem :=
  { id := q.id.getD (synthQuestionId i), text := q.text }

/-- Normalize actions left to right, numbering from a start index. -/
def normActions (i : Nat) : List RawAction → List ActionItem
  | [] => []
  | a :: rest => normAction i a :: normActions (i + 1) rest

/-- Normalize questions left to right, numbering from a start index. -/
def normQuestions (i : Nat) : List RawQuestion → List QuestionItem
  | [] => []
  | q :: rest => normQuestion i q :: normQuestions (i + 1) rest

/-- Normalize one similar case, clamping its similarity. -/
def normCase (c : RawCase) : SimilarCase :=
  { caseId := c.caseId, similarity := clamp100 c.similarity,
    diagnosis := c.diagnosis, outcome := c.outcome }

/-- Modelled from the spec: Result Aggregator `normalize(rawPayload)`.
Drops malformed diagnosis entries, clamps confidence/similarity to
[0,100], re-sorts by descending confidence, assigns synthetic ids to
actions/questions missing one, and fails with MalformedPayload exactly
when no usable diagnosis entry exists. -/
def normalize (p : RawPayload) : Except AggError DiagnosisResult :=
  let dx := p.differential.filterMap normDx
  if dx.isEmpty then Except.error AggError.malformedPayload
  else
    Except.ok
      { differentialDiagnosis := sortDxDesc dx
        recommendedActions := normActions 0 p.actions
        followUpQuestions := normQuestions 0 p.questions
        similarCases := p.cases.map normCase }

/-! ### Knowledge Graph Engine, modelled from the specification -/

/-- A graph expansion: the set of reachable (node, relation, node)
triplets. -/
structure GraphExpansion where
  triples : List (String × String × String)
deriving DecidableEq

/-- The medical knowledge graph: known nodes and relation triplets. -/
structure KGraph where
  nodes : List String
  edges : List (String × String × String)

/-- A term resolves when it names a known graph node. -/
def resolvesTerm (g : KGraph) (t : String) : Bool := g.nodes.contains t

/-- Successors of a node along outgoing edges. -/
def neighborsOf (g : KGraph) (n : String) : List String :=
  g.edges.filterMap (fun e => if e.1 = n then some e.2.2 else none)

/-- One breadth-first step: add unvisited successors of the visited set. -/
def frontierStep (g : KGraph) (visited : List String) : List String :=
  visited ++ ((visited.map (neighborsOf g)).flatten).filter
    (fun n => !visited.contains n)

/-- Nodes reachable from the seeds within a bounded number of steps. -/
def reachable (g : KGraph) (seeds : List String) : Nat → List String
  | 0 => seeds
  | d + 1 => frontierStep g (reachable g seeds d)

/-- The empty expansion. -/
def emptyExpansion : GraphExpansion := ⟨[]⟩

/-- Modelled from the spec: Knowledge Graph Engine `expand(terms,
maxDepth)`: breadth-first from each resolving seed, deduplicating seeds,
skipping unknown terms; returns the triplets rooted at reached nodes. -/
def expand (g : KGraph) (terms : List String) (maxDepth : Nat) :
    GraphExpansion :=
  let seeds := (terms.filter (resolvesTerm g)).dedup
  let reached := reachable g seeds maxDepth
  ⟨g.edges.filter (fun e => reached.contains e.1)⟩

/-! ### Export operation, modelled from the specification -/

/-- Errors of the Export operation. -/
inductive ExportError where
  | sessionNotFound
  | sessionNotReady
deriving DecidableEq

/-- Escape a character for a JSON string literal. -/
def escapeChar (c : Char) : String :=
  if c = '"' then "\\\"" else if c = '\\' then "\\\\" else String.mk [c]

/-- Quote a string as a JSON string literal. -/
def quoteStr (s : String) : String :=
  "\"" ++ String.join (s.toList.map escapeChar) ++ "\""

mutual

/-- Serialize a JSON value. -/
def stringifyJson : Json → String
  | Json.str s => quoteStr s
  | Json.num n => toString n
  | Json.bool b => if b then "true" else "false"
  | Json.arr items => "[" ++ stringifyItems items ++ "]"
  | Json.obj fields => "\x7b" ++ stringifyFields fields ++ "\x7d"

/-- Serialize array items, comma-separated. -/
def stringifyItems : List Json → String
  | [] => ""
  | [x] => stringifyJson x
  | x :: rest => stringifyJson x ++ "," ++ stringifyItems rest

/-- Serialize object fields, comma-separated. -/
def stringifyFields : List (String × Json) → String
  | [] => ""
  | [(k, v)] => quoteStr k ++ ":" ++ stringifyJson v
  | (k, v) :: rest => quoteStr k ++ ":" ++ stringifyJson v ++ "," ++ stringifyFields rest

end

/-- JSON form of one differential-diagnosis entry. -/
def dxToJson (d : DxEntry) : Json :=
  Json.obj [("condition", Json.str d.condition),
            ("confidence", Json.num d.confidence),
            ("description", Json.str d.description),
            ("icd10", Json.str d.icd10)]

/-- JSON form of one recommended action. -/
def actionToJson (a : ActionItem) : Json :=
  Json.obj [("id", Json.str a.id), ("text", Json.str a.text),
            ("priority", Json.str a.priority),
            ("category", Json.str a.category)]

/-- JSON form of one follow-up question. -/
def questionToJson (q : QuestionItem) : Json :=
  Json.obj [("id", Json.str q.id), ("text", Json.str q.text)]

/-- JSON form of one similar case. -/
def caseToJson (c : SimilarCase) : Json :=
  Json.obj [("caseId", Json.str c.caseId),
            ("similarity", Json.num c.similarity),
            ("diagnosis", Json.str c.diagnosis),
            ("outcome", Json.str c.outcome)]

/-- Canonical JSON form of a DiagnosisResult. -/
def resultToJson (r : DiagnosisResult) : Json :=
  Json.obj
    [("differentialDiagnosis", Json.arr (r.differentialDiagnosis.map dxToJson)),
     ("recommendedActions", Json.arr (r.recommendedActions.map actionToJson)),
     ("followUpQuestions", Json.arr (r.followUpQuestions.map questionToJson)),
     ("similarCases", Json.arr (r.similarCases.map caseToJson))]

/-- Serialize a DiagnosisResult in a requested format (json is the one
specified format). -/
def serializeResult (r : DiagnosisResult) (format : String) : String :=
  stringifyJson (resultToJson r)

/-- Modelled from the spec: the Export operation. Looks the session up,
fails with SessionNotFound on an unknown id, fails with SessionNotReady
unless the session is completed with a stored result, else returns the
serialized DiagnosisResult. -/
def exportDiagnosisOp (store : SessionStore) (sid : String)
    (format : String) : Except ExportError String :=
  match storeGet store sid with
  | none => Except.error ExportError.sessionNotFound
  | some s =>
    match s.state, s.result with
    | SessionState.completed, some r => Except.ok (serializeResult r format)
    | _, _ => Except.error ExportError.sessionNotReady

/-! ### Generation Client and Task Executor, modelled from the
specification -/

/-- Failure modes of the networked Generation Client. -/
inductive ProviderFailure where
  | providerTimeout
  | providerRateLimited
  | providerError
deriving DecidableEq

/-- Outcome of the networked Generation Client call for one job, after
its retry budget is spent. -/
inductive GenOutcome where
  | success (payload : RawPayload)
  | failure (e : ProviderFailure)

/-- The prompt context composed for the Generation Client. -/
structure PromptContext where
  complaints : List String
  symptoms : List String
deriving DecidableEq

/-- Modelled from the spec: the Offline generation variant, a pure
deterministic function from the prompt context to a synthetic payload;
it never fails and always yields a usable diagnosis entry. -/
def offlineGenerate (ctx : PromptContext) : RawPayload :=
  { differential :=
      [{ condition := some "General viral syndrome", confidence := some 55,
         description := some "Deterministic offline assessment",
         code := some "R69" }]
    actions :=
      [{ id := none, text := "Review with a clinician", priority := "high",
         category := "referral" }]
    questions :=
      ctx.symptoms.map (fun s =>
        { id := none, text := "How long has " ++ s ++ " lasted?" })
    cases := [] }

/-- Complete the session from the offline fallback payload, marking the
result degraded. -/
def completeOffline (store : SessionStore) (sid : String)
    (ctx : PromptContext) : Except TransitionError SessionStore :=
  match normalize (offlineGenerate ctx) with
  | Except.ok res => transition store sid SessionState.completed (some res) true none
  | Except.error _ =>
    transition store sid SessionState.failed none true (some "generation failed")

/-- Modelled from the spec: the Task Executor running one diagnosis job.
It moves the session to processing, calls the networked Generation
Client; on ProviderTimeout, ProviderRateLimited, or ProviderError it
falls back to the Offline variant and marks the result degraded; a
successfully normalized networked payload completes the session
undegraded; a malformed networked payload also falls back to Offline. -/
def executeJob (store : SessionStore) (sid : String)
    (networkedOutcome : GenOutcome) (ctx : PromptContext) :
    Except TransitionError SessionStore :=
  match transition store sid SessionState.processing none false none with
  | Except.error e => Except.error e
  | Except.ok store1 =>
    match networkedOutcome with
    | GenOutcome.failure _ => completeOffline store1 sid ctx
    | GenOutcome.success rawp =>
      match normalize rawp with
      | Except.ok res =>
        transition store1 sid SessionState.completed (some res) false none
      | Except.error _ => completeOffline store1 sid ctx

/-! ## Theorems settling the claims -/

/-- Claim C9: for every email and password, signup and login issue the
same request — a POST to /auth/login with JSON body containing the email
as username and the password — so signup never reaches a distinct
registration endpoint; the only difference is that login sets
credentials include while signup does not. -/
theorem c9_signup_is_login (base email password : String)
    (fn : Option String) :
    signup_req base ⟨email, password, fn⟩ =
      { login_req base ⟨email, password⟩ with includeCredentials := false } ∧
    (login_req base ⟨email, password⟩).includeCredentials = true ∧
    (signup_req base ⟨email, password, fn⟩).includeCredentials = false ∧
    (signup_req base ⟨email, password, fn⟩).url = base ++ "/auth/login" ∧
    (signup_req base ⟨email, password, fn⟩).method = "POST" ∧
    (signup_req base ⟨email, password, fn⟩).body =
      some (Json.obj [("username", Json.str email),
                      ("password", Json.str password)]) :=
  ⟨rfl, rfl, rfl, rfl, rfl, rfl⟩

/-- Claim C10: logout and verifyEmail perform no network request and
unconditionally succeed: logout removes the token key from localStorage
and returns success true, and verifyEmail returns success true for every
token without validating it. -/
theorem c10_logout_verifyEmail_local (store : List (String × String))
    (token k v : String) :
    (logout store).2.1 = successJson ∧
    (logout store).2.2 = ([] : List Request) ∧
    ((k, v) ∈ (logout store).1 ↔ (k, v) ∈ store ∧ k ≠ "token") ∧
    (verifyEmail token).1 = successJson ∧
    (verifyEmail token).2 = ([] : List Request) := by
  refine ⟨rfl, rfl, ?_, rfl, rfl⟩
  simp [logout, localStorage_removeItem, List.mem_filter]

/-- Claim C8: the knowledge-graph read surface is exposed as read-only
GET queries that take no session id: disease lookup, path finding,
symptom relations, and aggregate stats, with URL-encoded path
components. -/
theorem c8_kg_read_surface
    (base diseaseName sourceNode targetNode symptom : String) :
    (getDiseaseInfo_req base diseaseName).url =
      base ++ "/api/v1/kg/disease/" ++ encodeURIComponent diseaseName ∧
    (getDiseaseInfo_req base diseaseName).method = "GET" ∧
    (getDiseaseInfo_req base diseaseName).body = none ∧
    (findPath_req base sourceNode targetNode).url =
      base ++ "/api/v1/kg/path/" ++ encodeURIComponent sourceNode ++ "/" ++
        encodeURIComponent targetNode ∧
    (findPath_req base sourceNode targetNode).method = "GET" ∧
    (getSymptomRelations_req base symptom).url =
      base ++ "/api/v1/kg/symptoms/" ++ encodeURIComponent symptom ∧
    (getKGStats_req base).url = base ++ "/api/v1/kg/stats" ∧
    (getKGStats_req base).method = "GET" ∧
    (getDiseaseInfo_req "" "heart attack").url =
      "/api/v1/kg/disease/heart%20attack" := by
  refine ⟨rfl, rfl, rfl, rfl, rfl, rfl, rfl, rfl, ?_⟩
  decide

/-- The concrete diagnosis-start request the client builds from a filled
`DiagnosisRequest` form. -/
def c2req : Request :=
  createDiagnosis_req ""
    { patient_name := "Jane Doe", patient_email := "jane@example.com",
      age := 40, gender := "F", symptoms := "chest pain, fatigue",
      medical_history := none }

/-- Claim C2 (divergence evidence): the payload `createDiagnosis`
serializes carries patient demographics and a single symptoms string;
it has no complaints sequence, no vitals mapping, and no top_k field,
contradicting the documented PatientInput shape of the submit
endpoint. -/
theorem c2_submit_payload_shape :
    bodyKeys c2req =
      ["patient_name", "patient_email", "age", "gender", "symptoms"] ∧
    "complaints" ∉ bodyKeys c2req ∧
    "vitals" ∉ bodyKeys c2req ∧
    "top_k" ∉ bodyKeys c2req := by
  decide

/-- Claim C4: exactly three APIClient methods inspect the HTTP status of
the response — createDiagnosis, getUserDiagnoses, and getDiagnosis throw
on a non-ok status (getUserDiagnoses throws Not authenticated on 403) —
while every other fetch-performing method returns the parsed body
regardless of status, so an HTTP-level failure there is never surfaced
as an exception. -/
theorem c4_status_inspection :
    (∀ r : Response, r.isOk = false →
      createDiagnosis_onResponse r = Except.error (httpErrorMessage r)) ∧
    (∀ r : Response, r.isOk = true →
      createDiagnosis_onResponse r = Except.ok r.body) ∧
    (∀ r : Response, r.status = 403 →
      getUserDiagnoses_onResponse r = Except.error "Not authenticated") ∧
    (∀ r : Response, r.isOk = false →
      ∃ msg, getUserDiagnoses_onResponse r = Except.error msg) ∧
    (∀ r : Response, r.isOk = true →
      getUserDiagnoses_onResponse r = Except.ok r.body) ∧
    (∀ r : Response, r.isOk = false →
      getDiagnosis_onResponse r = Except.error (httpErrorMessage r)) ∧
    (∀ r : Response, r.isOk = true →
      getDiagnosis_onResponse r = Except.ok r.body) ∧
    (∀ r : Response, exportDiagnosis_onResponse r = Except.ok r.body) ∧
    (∀ r : Response, deleteDiagnosis_onResponse r = Except.ok r.body) ∧
    (∀ r : Response, uploadFile_onResponse r = Except.ok r.body) ∧
    (∀ r : Response, login_onResponse r = Except.ok r.body) ∧
    (∀ r : Response, signup_onResponse r = Except.ok r.body) ∧
    (∀ r : Response, getCurrentUser_onResponse r = Except.ok r.body) ∧
    (∀ r : Response, updateUser_onResponse r = Except.ok r.body) ∧
    (∀ r : Response, getUploadProgress_onResponse r = Except.ok r.body) ∧
    (∀ r : Response, healthCheck_onResponse r = Except.ok r.body) ∧
    (∀ r : Response, submitFeedback_onResponse r = Except.ok r.body) ∧
    (∀ r : Response, getDiagnosisSummary_onResponse r = Except.ok r.body) ∧
    (∀ r : Response, getSessionKG_onResponse r = Except.ok r.body) ∧
    (∀ r : Response, exploreNode_onResponse r = Except.ok r.body) ∧
    (∀ r : Response, findPath_onResponse r = Except.ok r.body) ∧
    (∀ r : Response, getDiseaseInfo_onResponse r = Except.ok r.body) ∧
    (∀ r : Response, getSymptomRelations_onResponse r = Except.ok r.body) ∧
    (∀ r : Response, getKGStats_onResponse r = Except.ok r.body) ∧
    (∀ r : Response, analyzeSymptoms_onResponse r = Except.ok r.body) ∧
    (∀ r : Response, createPatient_onResponse r = Except.ok r.body) ∧
    (∀ r : Response, getPatient_onResponse r = Except.ok r.body) ∧
    (∀ r : Response, deletePatient_onResponse r = Except.ok r.body) := by
  refine ⟨?_, ?_, ?_, ?_, ?_, ?_, ?_,
    fun r => rfl, fun r => rfl, fun r => rfl, fun r => rfl, fun r => rfl,
    fun r => rfl, fun r => rfl, fun r => rfl, fun r => rfl, fun r => rfl,
    fun r => rfl, fun r => rfl, fun r => rfl, fun r => rfl, fun r => rfl,
    fun r => rfl, fun r => rfl, fun r => rfl, fun r => rfl, fun r => rfl,
    fun r => rfl⟩
  · intro r h
    simp [createDiagnosis_onResponse, h]
  · intro r h
    simp [createDiagnosis_onResponse, h]
  · intro r h
    simp [getUserDiagnoses_onResponse, h]
  · intro r h
    by_cases h4 : r.status = 403
    · exact ⟨"Not authenticated", by simp [getUserDiagnoses_onResponse, h4]⟩
    · exact ⟨httpErrorMessage r, by simp [getUserDiagnoses_onResponse, h4, h]⟩
  · intro r h
    have h4 : r.status ≠ 403 := by
      simp only [Response.isOk, Bool.and_eq_true, decide_eq_true_eq] at h
      omega
    simp [getUserDiagnoses_onResponse, h4, h]
  · intro r h
    simp [getDiagnosis_onResponse, h]
  · intro r h
    simp [getDiagnosis_onResponse, h]

/-- Concrete instantiation of the status-inspection theorem: a 500
response makes createDiagnosis throw, a 403 makes getUserDiagnoses throw
Not authenticated, and exportDiagnosis swallows a 500 and returns its
body. -/
theorem c4_status_inspection_witness :
    createDiagnosis_onResponse ⟨500, "Server Error", Json.str "x"⟩ =
      Except.error "HTTP 500: Server Error" ∧
    getUserDiagnoses_onResponse ⟨403, "Forbidden", Json.str "x"⟩ =
      Except.error "Not authenticated" ∧
    exportDiagnosis_onResponse ⟨500, "Server Error", Json.str "x"⟩ =
      Except.ok (Json.str "x") := by
  obtain ⟨h1, _, h3, _, _, _, _, h8, _⟩ := c4_status_inspection
  exact ⟨h1 ⟨500, "Server Error", Json.str "x"⟩ rfl, h3 _ rfl,
    h8 ⟨500, "Server Error", Json.str "x"⟩⟩

/-- Every well-formed state sequence starting at pending is one of the
four prefixes of the two terminal sequences. -/
lemma chainOK_pending_cases (t : List SessionState)
    (h : chainOK (SessionState.pending :: t) = true) :
    SessionState.pending :: t = [SessionState.pending] ∨
    SessionState.pending :: t =
      [SessionState.pending, SessionState.processing] ∨
    SessionState.pending :: t =
      [SessionState.pending, SessionState.processing,
       SessionState.completed] ∨
    SessionState.pending :: t =
      [SessionState.pending, SessionState.processing,
       SessionState.failed] := by
  rcases t with _ | ⟨x, _ | ⟨y, _ | ⟨z, rest⟩⟩⟩
  · exact Or.inl rfl
  · cases x <;> simp_all [chainOK, allowedTransition]
  · cases x <;> cases y <;> simp_all [chainOK, allowedTransition]
  · cases x <;> cases y <;> cases z <;> simp_all [chainOK, allowedTransition]

/-- Claim C3: the session state machine only moves along
pending, processing, then completed or failed: every well-formed
observed sequence is a prefix of those, no state is revisited, a
disallowed transition fails with InvalidStateTransition (producing no
updated store), and an allowed one updates exactly the addressed
session. -/
theorem c3_session_state_machine :
    (∀ t : List SessionState, chainOK (SessionState.pending :: t) = true →
      SessionState.pending :: t = [SessionState.pending] ∨
      SessionState.pending :: t =
        [SessionState.pending, SessionState.processing] ∨
      SessionState.pending :: t =
        [SessionState.pending, SessionState.processing,
         SessionState.completed] ∨
      SessionState.pending :: t =
        [SessionState.pending, SessionState.processing,
         SessionState.failed]) ∧
    (∀ t : List SessionState, chainOK (SessionState.pending :: t) = true →
      (SessionState.pending :: t).Nodup) ∧
    (∀ (store : SessionStore) (sid : String) (new : SessionState)
        (r : Option DiagnosisResult) (d : Bool) (e : Option String)
        (s0 : DiagnosisSession), storeGet store sid = some s0 →
      allowedTransition s0.state new = false →
      transition store sid new r d e =
        Except.error TransitionError.invalidStateTransition) ∧
    (∀ (store : SessionStore) (sid : String) (new : SessionState)
        (r : Option DiagnosisResult) (d : Bool) (e : Option String)
        (s0 : DiagnosisSession), storeGet store sid = some s0 →
      allowedTransition s0.state new = true →
      transition store sid new r d e =
        Except.ok (storeSet store sid
          { state := new, result := r, degraded := d, errorDetail := e })) := by
  refine ⟨chainOK_pending_cases, ?_, ?_, ?_⟩
  · intro t h
    rcases chainOK_pending_cases t h with h1 | h1 | h1 | h1 <;>
      rw [h1] <;> decide
  · intro store sid new r d e s0 hget hbad
    simp [transition, hget, hbad]
  · intro store sid new r d e s0 hget hok
    simp [transition, hget, hok]

/-- A pending session record, used as a concrete instantiation. -/
def pendingSession : DiagnosisSession :=
  { state := SessionState.pending, result := none, degraded := false,
    errorDetail := none }

/-- Concrete instantiation of the state-machine theorem: the full
successful trace is accepted, and asking a pending session to jump
straight to completed is rejected with InvalidStateTransition. -/
theorem c3_session_state_machine_witness :
    chainOK [SessionState.pending, SessionState.processing,
      SessionState.completed] = true ∧
    ([SessionState.pending, SessionState.processing,
        SessionState.completed] : List SessionState).Nodup ∧
    transition [("s1", pendingSession)] "s1" SessionState.completed none
      false none = Except.error TransitionError.invalidStateTransition := by
  refine ⟨by decide, ?_, ?_⟩
  · exact c3_session_state_machine.2.1
      [SessionState.processing, SessionState.completed] (by decide)
  · exact c3_session_state_machine.2.2.1 [("s1", pendingSession)] "s1"
      SessionState.completed none false none pendingSession rfl (by decide)

/-- Breadth-first reach from an empty seed set stays empty. -/
lemma reachable_nil (g : KGraph) : ∀ d : Nat, reachable g [] d = []
  | 0 => rfl
  | d + 1 => by simp [reachable, frontierStep, reachable_nil g d]

/-- Claim C7: expand never fails — unknown terms are skipped, and on an
empty or unresolvable term set the call returns the empty expansion
rather than an error. -/
theorem c7_expand_never_fails (g : KGraph) (terms : List String) (d : Nat) :
    expand g [] d = emptyExpansion ∧
    ((∀ t ∈ terms, resolvesTerm g t = false) →
      expand g terms d = emptyExpansion) ∧
    expand g terms d = expand g (terms.filter (resolvesTerm g)) d := by
  refine ⟨?_, ?_, ?_⟩
  · simp [expand, reachable_nil, emptyExpansion, List.filter_eq_nil_iff]
  · intro h
    have hf : terms.filter (resolvesTerm g) = [] :=
      List.filter_eq_nil_iff.mpr (by simpa using h)
    simp [expand, hf, reachable_nil, emptyExpansion, List.filter_eq_nil_iff]
  · have hf : (terms.filter (resolvesTerm g)).filter (resolvesTerm g) =
        terms.filter (resolvesTerm g) := by
      simp [List.filter_filter]
    simp [expand, hf]

/-- A small knowledge graph used as a concrete instantiation. -/
def demoGraph : KGraph :=
  { nodes := ["fever"], edges := [("fever", "indicates", "influenza")] }

/-- Concrete instantiation of the expansion theorem: two unknown terms
resolve to nothing and yield the empty expansion, not an error. -/
theorem c7_expand_never_fails_witness :
    (∀ t ∈ (["unknown-a", "unknown-b"] : List String),
      resolvesTerm demoGraph t = false) ∧
    expand demoGraph ["unknown-a", "unknown-b"] 2 = emptyExpansion := by
  refine ⟨by decide, ?_⟩
  exact (c7_expand_never_fails demoGraph ["unknown-a", "unknown-b"] 2).2.1
    (by decide)

/-- Claim C1: the Export operation either returns a serialized
DiagnosisResult or fails with SessionNotFound or SessionNotReady, and on
a session still pending it fails with SessionNotReady, returning no
result body. -/
theorem c1_export_pending (store : SessionStore) (sid format : String) :
    ((∃ body, exportDiagnosisOp store sid format = Except.ok body) ∨
      exportDiagnosisOp store sid format =
        Except.error ExportError.sessionNotFound ∨
      exportDiagnosisOp store sid format =
        Except.error ExportError.sessionNotReady) ∧
    (∀ s : DiagnosisSession, storeGet store sid = some s →
      s.state = SessionState.pending →
      exportDiagnosisOp store sid format =
        Except.error ExportError.sessionNotReady) := by
  constructor
  · rcases h : exportDiagnosisOp store sid format with e | body
    · cases e
      · exact Or.inr (Or.inl rfl)
      · exact Or.inr (Or.inr rfl)
    · exact Or.inl ⟨body, rfl⟩
  · intro s hget hpend
    simp [exportDiagnosisOp, hget, hpend]

/-- Concrete instantiation of the export theorem: exporting a session
that is still pending fails with SessionNotReady. -/
theorem c1_export_pending_witness :
    storeGet [("s1", pendingSession)] "s1" = some pendingSession ∧
    pendingSession.state = SessionState.pending ∧
    exportDiagnosisOp [("s1", pendingSession)] "s1" "json" =
      Except.error ExportError.sessionNotReady :=
  ⟨rfl, rfl,
    (c1_export_pending [("s1", pendingSession)] "s1" "json").2
      pendingSession rfl rfl⟩

/-- Updating a session and reading it back yields the update. -/
lemma storeGet_storeSet_self :
    ∀ (store : SessionStore) (sid : String) (s : DiagnosisSession),
      storeGet (storeSet store sid s) sid = some s
  | [], sid, s => by simp [storeGet, storeSet]
  | (k, s0) :: rest, sid, s => by
    by_cases h : k = sid <;>
      simp [storeGet, storeSet, h, storeGet_storeSet_self rest sid s]

/-- Claim C5: when the networked Generation Client call fails with
ProviderTimeout, ProviderRateLimited, or ProviderError, the Task
Executor falls back to the Offline variant instead of failing the
session: the job succeeds and the session completes with its stored
result marked degraded. -/
theorem c5_offline_fallback (store : SessionStore) (sid : String)
    (e : ProviderFailure) (ctx : PromptContext) (s0 : DiagnosisSession)
    (hget : storeGet store sid = some s0)
    (hpend : s0.state = SessionState.pending) :
    ∃ (store2 : SessionStore) (res : DiagnosisResult),
      executeJob store sid (GenOutcome.failure e) ctx = Except.ok store2 ∧
      storeGet store2 sid = some
        { state := SessionState.completed, result := some res,
          degraded := true, errorDetail := none } := by
  obtain ⟨res, hres⟩ :
      ∃ res, normalize (offlineGenerate ctx) = Except.ok res := ⟨_, rfl⟩
  have h2 : storeGet (storeSet store sid
      { state := SessionState.processing, result := none,
        degraded := false, errorDetail := none }) sid = some
      { state := SessionState.processing, result := none,
        degraded := false, errorDetail := none } :=
    storeGet_storeSet_self store sid _
  refine ⟨storeSet (storeSet store sid
      { state := SessionState.processing, result := none,
        degraded := false, errorDetail := none }) sid
      { state := SessionState.completed, result := some res,
        degraded := true, errorDetail := none }, res, ?_, ?_⟩
  · simp [executeJob, completeOffline, hres, transition, hget, hpend, h2,
      allowedTransition]
  · exact storeGet_storeSet_self _ sid _

/-- Concrete instantiation of the fallback theorem: a timed-out
networked call on a pending session still yields a completed, degraded
session. -/
theorem c5_offline_fallback_witness :
    ∃ (store2 : SessionStore) (res : DiagnosisResult),
      executeJob [("s1", pendingSession)] "s1"
        (GenOutcome.failure ProviderFailure.providerTimeout)
        ⟨["chest pain"], ["fatigue"]⟩ = Except.ok store2 ∧
      storeGet store2 "s1" = some
        { state := SessionState.completed, result := some res,
          degraded := true, errorDetail := none } :=
  c5_offline_fallback [("s1", pendingSession)] "s1"
    ProviderFailure.providerTimeout ⟨["chest pain"], ["fatigue"]⟩
    pendingSession rfl rfl

/-- A raw diagnosis entry normalizes to something exactly when it is
usable. -/
lemma normDx_isSome (e : RawDxEntry) : (normDx e).isSome = usableDx e := by
  cases hc : e.condition <;> cases hf : e.confidence <;>
    simp [normDx, usableDx, hc, hf]

/-- Clamping lands in [0, 100]. -/
lemma clamp100_bounds (x : Int) : 0 ≤ clamp100 x ∧ clamp100 x ≤ 100 :=
  ⟨le_max_left 0 _, max_le (by norm_num) (min_le_left 100 x)⟩

/-- A normalized diagnosis entry has a clamped confidence. -/
lemma normDx_confidence_bounds (e : RawDxEntry) (d : DxEntry)
    (h : normDx e = some d) : 0 ≤ d.confidence ∧ d.confidence ≤ 100 := by
  cases hc : e.condition <;> cases hf : e.confidence <;>
    simp [normDx, hc, hf] at h
  rw [← h]
  exact clamp100_bounds _

/-- Normalizing actions preserves the length. -/
lemma normActions_length (s : Nat) (l : List RawAction) :
    (normActions s l).length = l.length := by
  induction l generalizing s with
  | nil => rfl
  | cons a rest ih => simp [normActions, ih]

/-- Normalizing questions preserves the length. -/
lemma normQuestions_length (s : Nat) (l : List RawQuestion) :
    (normQuestions s l).length = l.length := by
  induction l generalizing s with
  | nil => rfl
  | cons q rest ih => simp [normQuestions, ih]

/-- The action at a position normalizes positionally. -/
lemma normActions_get (l : List RawAction) (s i : Nat)
    (h : i < l.length) (h2 : i < (normActions s l).length) :
    (normActions s l).get ⟨i, h2⟩ = normAction (s + i) (l.get ⟨i, h⟩) := by
  induction l generalizing s i with
  | nil => exact absurd h (by simp)
  | cons a rest ih =>
    cases i with
    | zero => rfl
    | succ j =>
      have hj : j < rest.length := by simpa using h
      have hj2 : j < (normActions (s + 1) rest).length := by
        simpa [normActions, normActions_length] using hj
      have hrec := ih (s + 1) j hj hj2
      rw [show s + (j + 1) = s + 1 + j from by omega]
      exact hrec

/-- The question at a position normalizes positionally. -/
lemma normQuestions_get (l : List RawQuestion) (s i : Nat)
    (h : i < l.length) (h2 : i < (normQuestions s l).length) :
    (normQuestions s l).get ⟨i, h2⟩ = normQuestion (s + i) (l.get ⟨i, h⟩) := by
  induction l generalizing s i with
  | nil => exact absurd h (by simp)
  | cons q rest ih =>
    cases i with
    | zero => rfl
    | succ j =>
      have hj : j < rest.length := by simpa using h
      have hj2 : j < (normQuestions (s + 1) rest).length := by
        simpa [normQuestions, normQuestions_length] using hj
      have hrec := ih (s + 1) j hj hj2
      rw [show s + (j + 1) = s + 1 + j from by omega]
      exact hrec

/-- The kept diagnosis entries are empty exactly when no raw entry is
usable. -/
lemma filterMap_normDx_isEmpty (l : List RawDxEntry) :
    (l.filterMap normDx).isEmpty = true ↔ l.any usableDx = false := by
  have hiff : ∀ e : RawDxEntry, normDx e = none ↔ usableDx e = false := by
    intro e
    rw [← normDx_isSome]
    cases normDx e <;> simp
  rw [List.isEmpty_iff, List.filterMap_eq_nil_iff, List.any_eq_false]
  constructor
  · intro hall e he
    simpa using (hiff e).mp (hall e he)
  · intro hall e he
    exact (hiff e).mpr (by simpa using hall e he)

/-- The result record normalize builds when at least one diagnosis
entry survives. -/
def normalizedResult (p : RawPayload) : DiagnosisResult :=
  { differentialDiagnosis := sortDxDesc (p.differential.filterMap normDx)
    recommendedActions := normActions 0 p.actions
    followUpQuestions := normQuestions 0 p.questions
    similarCases := p.cases.map normCase }

/-- Claim C6: on a payload with at least one usable diagnosis entry,
normalize succeeds; every emitted confidence and similarity lies in
[0,100]; the differential diagnosis is sorted by descending confidence;
malformed entries are dropped without failing the result; actions and
questions missing an id get a synthetic positional id; and normalize
fails with MalformedPayload exactly when no diagnosis entry is
usable. -/
theorem c6_normalize_clamps_sorts (p : RawPayload) :
    (p.differential.any usableDx = true →
      ∃ res, normalize p = Except.ok res ∧
        (∀ d ∈ res.differentialDiagnosis,
          0 ≤ d.confidence ∧ d.confidence ≤ 100) ∧
        (∀ c ∈ res.similarCases,
          0 ≤ c.similarity ∧ c.similarity ≤ 100) ∧
        List.Sorted dxDesc res.differentialDiagnosis ∧
        res.recommendedActions.length = p.actions.length ∧
        res.followUpQuestions.length = p.questions.length ∧
        res.similarCases.length = p.cases.length ∧
        (∀ (i : Nat) (h1 : i < p.actions.length)
            (h2 : i < res.recommendedActions.length),
          (p.actions.get ⟨i, h1⟩).id = none →
          (res.recommendedActions.get ⟨i, h2⟩).id = synthActionId i) ∧
        (∀ (i : Nat) (h1 : i < p.questions.length)
            (h2 : i < res.followUpQuestions.length),
          (p.questions.get ⟨i, h1⟩).id = none →
          (res.followUpQuestions.get ⟨i, h2⟩).id = synthQuestionId i)) ∧
    (normalize p = Except.error AggError.malformedPayload ↔
      p.differential.any usableDx = false) := by
  constructor
  · intro hany
    cases hEmpty : (p.differential.filterMap normDx).isEmpty with
    | true =>
      exfalso
      have hfalse := (filterMap_normDx_isEmpty p.differential).mp hEmpty
      rw [hany] at hfalse
      simp at hfalse
    | false =>
      refine ⟨normalizedResult p, ?_, ?_, ?_, ?_, ?_, ?_, ?_, ?_, ?_⟩
      · simp [normalize, normalizedResult, hEmpty]
      · intro d hd
        simp only [normalizedResult, sortDxDesc, List.mem_insertionSort] at hd
        obtain ⟨e, _, hne⟩ := List.mem_filterMap.mp hd
        exact normDx_confidence_bounds e d hne
      · intro c hc
        simp only [normalizedResult] at hc
        obtain ⟨raw, _, hc⟩ := List.mem_map.mp hc
        rw [← hc]
        simpa [normCase] using clamp100_bounds raw.similarity
      · exact List.sorted_insertionSort dxDesc _
      · exact normActions_length 0 p.actions
      · exact normQuestions_length 0 p.questions
      · simp [normalizedResult]
      · intro i h1 h2 hid
        have hget := normActions_get p.actions 0 i h1
          (by simpa [normalizedResult] using h2)
        simp only [normalizedResult] at hget ⊢
        rw [hget]
        simp only [List.get_eq_getElem] at hid
        simp [normAction, hid]
      · intro i h1 h2 hid
        have hget := normQuestions_get p.questions 0 i h1
          (by simpa [normalizedResult] using h2)
        simp only [normalizedResult] at hget ⊢
        rw [hget]
        simp only [List.get_eq_getElem] at hid
        simp [normQuestion, hid]
  · constructor
    · intro herr
      cases hEmpty : (p.differential.filterMap normDx).isEmpty with
      | true => exact (filterMap_normDx_isEmpty p.differential).mp hEmpty
      | false =>
        exfalso
        simp [normalize, hEmpty] at herr
    · intro hany
      have hEmpty : (p.differential.filterMap normDx).isEmpty = true :=
        (filterMap_normDx_isEmpty p.differential).mpr hany
      simp [normalize, hEmpty]

/-- A raw payload mixing a malformed entry with out-of-range confidence
and similarity values, used as a concrete instantiation. -/
def rawPayloadDemo : RawPayload :=
  { differential :=
      [{ condition := some "Influenza", confidence := some 250,
         description := none, code := some "J11.1" },
       { condition := none, confidence := some 10,
         description := some "stray entry", code := none },
       { condition := some "Common cold", confidence := some (-5),
         description := some "low likelihood", code := none }]
    actions :=
      [{ id := none, text := "Rest and fluids", priority := "medium",
         category := "lifestyle" }]
    questions :=
      [{ id := some "q-custom", text := "Any fever at night?" },
       { id := none, text := "Recent travel?" }]
    cases :=
      [{ caseId := "A124", similarity := 180, diagnosis := "Flu",
         outcome := "Recovered" }] }

/-- Concrete instantiation of the normalize theorem: the demo payload
has a usable entry, so normalize succeeds on it. -/
theorem c6_normalize_clamps_sorts_witness :
    rawPayloadDemo.differential.any usableDx = true ∧
    ∃ res, normalize rawPayloadDemo = Except.ok res := by
  refine ⟨rfl, ?_⟩
  obtain ⟨res, hres, -⟩ := (c6_normalize_clamps_sorts rawPayloadDemo).1 rfl
  exact ⟨res, hres⟩

end MedRAG
